import Mathlib

/-!
Shallow embedding of the CalendarBot event-sharing and calendar-sync core
(src/bot.py).  The three JSON-backed stores become association lists, the
per-user pickled credential files become a map from file path to a load
result, and the Google Calendar API plus the OAuth refresh exchange become
an oracle of response functions.  Every operation returns its outcome, the
updated stores, the updated credential file system, and a trace of effects
(remote calls, file writes, store mutations, user-facing messages) so that
ordering properties such as persist-before-acknowledge can be stated.
-/

set_option maxRecDepth 4000

namespace CalendarBot

/-- Association-list lookup, mirroring Python dict membership and indexing. -/
def alookup {α : Type} (k : String) : List (String × α) → Option α
  | [] => none
  | (k₂, v) :: rest => if k₂ = k then some v else alookup k rest

/-- Association-list update, mirroring Python dict assignment: replace the
existing entry in place or append a new one. -/
def aset {α : Type} (k : String) (v : α) : List (String × α) → List (String × α)
  | [] => [(k, v)]
  | (k₂, v₂) :: rest => if k₂ = k then (k, v) :: rest else (k₂, v₂) :: aset k v rest

/-- Association-list removal, mirroring Python del on a dict (keys are unique
in every reachable state, so filtering all occurrences is equivalent). -/
def aremove {α : Type} (k : String) (l : List (String × α)) : List (String × α) :=
  l.filter (fun p => p.1 != k)

/-- OAuth credential as exposed by the google-auth library: token presence,
expiry flag and refresh-token presence.  The library defines the valid
property as: a token is present and the credential is not expired. -/
structure Credential where
  token : Bool
  expired : Bool
  refresh_token : Bool
deriving Repr, DecidableEq

/-- The valid property of google.oauth2.credentials.Credentials. -/
def Credential.valid (c : Credential) : Bool := c.token && !c.expired

/-- One entry of the user registry (client.user_emails). -/
structure UserData where
  email : String
  username : String
  creds_file : String
deriving Repr, DecidableEq

/-- One entry of the shared event store (client.shared_events).  The two
Discord fields are attached only after the scheduled event is created. -/
structure SharedEvent where
  name : String
  description : String
  start : String
  end_ : String
  creator_id : String
  location : String
  discord_event_id : Option String
  guild_id : Option Int
deriving Repr, DecidableEq

/-- One calendar link recorded in client.user_calendar_events. -/
structure CalendarLink where
  calendar_event_id : String
  event_name : String
  shared_event_id : String
deriving Repr, DecidableEq

/-- The three in-memory stores of the bot, each mirrored to a JSON file. -/
structure BotState where
  user_emails : List (String × UserData)
  shared_events : List (String × SharedEvent)
  user_calendar_events : List (String × List CalendarLink)
deriving Repr, DecidableEq

instance exceptDecEq {ε α : Type} [DecidableEq ε] [DecidableEq α] : DecidableEq (Except ε α) :=
  fun a b =>
  match a, b with
  | Except.error x, Except.error y =>
    if h : x = y then isTrue (congrArg Except.error h)
    else isFalse (fun hc => h (Except.error.inj hc))
  | Except.ok x, Except.ok y =>
    if h : x = y then isTrue (congrArg Except.ok h)
    else isFalse (fun hc => h (Except.ok.inj hc))
  | Except.error _, Except.ok _ => isFalse (fun hc => Except.noConfusion hc)
  | Except.ok _, Except.error _ => isFalse (fun hc => Except.noConfusion hc)

/-- The per-user credential files on disk: absent key means the file does not
exist, an error value means unpickling raises, and a loaded value of none
means the pickle held no credential object. -/
abbrev CredsFS : Type := List (String × Except String (Option Credential))

/-- An event returned by the remote calendar list query; the summary field
may be missing. -/
structure RemoteEvent where
  id : String
  summary : Option String
deriving Repr, DecidableEq

/-- The body sent to the remote calendar insert call. -/
structure EventBody where
  summary : String
  description : String
  startDateTime : String
  startTimeZone : String
  endDateTime : String
  endTimeZone : String
  location : Option String
deriving Repr, DecidableEq

/-- The remote calendar response to a successful insert. -/
structure InsertedEvent where
  id : String
  htmlLink : String
deriving Repr, DecidableEq

/-- Oracle for the external calendar provider: refresh exchange, windowed
text search, insert, delete.  An error value models a raised exception. -/
structure Remote where
  refresh : Credential → Except String Credential
  listEvents : String → String → String → Except String (List RemoteEvent)
  insertEvent : EventBody → Except String InsertedEvent
  deleteEvent : String → Except String Unit

/-- Observable effects of an operation, in order of occurrence. -/
inductive Eff where
  | remoteRefresh
  | remoteList (timeMin timeMax q : String)
  | remoteInsert (body : EventBody)
  | remoteDelete (eventId : String)
  | writeCreds (file : String)
  | removeCredsFile (file : String)
  | mutUsers
  | mutShared
  | mutLinks
  | saveUsers
  | saveShared
  | saveLinks
  | send (msg : String)
  | discordDeleteScheduled
  | discordCreateScheduled
deriving Repr, DecidableEq

/-- Result of one interaction-handler run. -/
structure OpResult (ω : Type) where
  outcome : ω
  st : BotState
  fs : CredsFS
  trace : List Eff
deriving Repr, DecidableEq

/-- Number of dash characters in a string, mirroring str.count in Python. -/
def dashCount (s : String) : Nat := s.data.countP (fun c => c = '-')

/-- Last-character test mirroring endswith with a one-character suffix. -/
def endsWithChar (s : String) (c : Char) : Bool := s.data.getLast? == some c

/-- Membership test mirroring the in operator on a one-character needle. -/
def containsChar (s : String) (c : Char) : Bool := s.data.contains c

/-- Timezone suffix normalization used before remote queries (bot.py lines
144 to 148): append the hardcoded Pacific offset when the timestamp does not
end in Z, contains no plus sign, and has exactly two dashes. -/
def addTzSuffix (s : String) : String :=
  if !endsWithChar s 'Z' && !containsChar s '+' && dashCount s == 2 then s ++ "-08:00" else s

/-- Result of the existence check: the boolean answer, the credential file
system (a refresh may have persisted a new credential), and the effects. -/
structure CheckResult where
  found : Bool
  fs : CredsFS
  trace : List Eff
deriving Repr, DecidableEq

/-- Tail of check_if_user_has_event after the credential was loaded and
optionally refreshed: validity test, then the windowed exact-title query. -/
def checkQuery (r : Remote) (creds : Credential) (event_name start_time end_time : String)
    (fs : CredsFS) (tr : List Eff) : CheckResult :=
  if !creds.valid then ⟨false, fs, tr⟩
  else
    let start_rfc := addTzSuffix start_time
    let end_rfc := addTzSuffix end_time
    match r.listEvents start_rfc end_rfc event_name with
    | Except.error _ => ⟨false, fs, tr ++ [Eff.remoteList start_rfc end_rfc event_name]⟩
    | Except.ok events =>
      ⟨events.any (fun e => e.summary == some event_name), fs,
        tr ++ [Eff.remoteList start_rfc end_rfc event_name]⟩

/-- Embedding of check_if_user_has_event (bot.py lines 98 to 169): the body
runs inside a try block whose except clause returns False, so every failing
branch yields found = false rather than an exception. -/
def check_if_user_has_event (st : BotState) (fs : CredsFS) (r : Remote)
    (user_id event_name start_time end_time : String) : CheckResult :=
  match alookup user_id st.user_emails with
  | none => ⟨false, fs, []⟩
  | some ud =>
    match alookup ud.creds_file fs with
    | none => ⟨false, fs, []⟩
    | some (Except.error _) => ⟨false, fs, []⟩
    | some (Except.ok none) => ⟨false, fs, []⟩
    | some (Except.ok (some creds)) =>
      if creds.expired && creds.refresh_token then
        match r.refresh creds with
        | Except.error _ => ⟨false, fs, [Eff.remoteRefresh]⟩
        | Except.ok c =>
          checkQuery r c event_name start_time end_time
            (aset ud.creds_file (Except.ok (some c)) fs)
            [Eff.remoteRefresh, Eff.writeCreds ud.creds_file]
      else checkQuery r creds event_name start_time end_time fs []

/-- Outcomes of the add-to-calendar button handler. -/
inductive AddOutcome where
  | notRegistered
  | eventNotFound
  | alreadyInCalendar
  | credsMissing
  | credsInvalid
  | added (calendar_event_id htmlLink : String)
  | opError (msg : String)
deriving Repr, DecidableEq

/-- Remote insert body built from a shared event (bot.py lines 262 to 277):
explicit named timeZone America/Los_Angeles, location only when non-empty. -/
def eventBody (ev : SharedEvent) : EventBody :=
  { summary := ev.name
    description := ev.description
    startDateTime := ev.start
    startTimeZone := "America/Los_Angeles"
    endDateTime := ev.end_
    endTimeZone := "America/Los_Angeles"
    location := if ev.location = "" then none else some ev.location }

/-- Tail of add_to_calendar after credential preparation: validity test,
remote insert, link recording with immediate save. -/
def addInsert (st : BotState) (fs : CredsFS) (r : Remote) (user_id event_id : String)
    (ev : SharedEvent) (creds : Credential) (tr : List Eff) : OpResult AddOutcome :=
  if !creds.valid then
    ⟨AddOutcome.credsInvalid, st, fs, tr ++ [Eff.send "credentials invalid"]⟩
  else
    let body := eventBody ev
    match r.insertEvent body with
    | Except.error e =>
      ⟨AddOutcome.opError e, st, fs, tr ++ [Eff.remoteInsert body, Eff.send "error adding event"]⟩
    | Except.ok ins =>
      let links := (alookup user_id st.user_calendar_events).getD []
      let newLinks := links ++ [CalendarLink.mk ins.id ev.name event_id]
      let st₂ := { st with user_calendar_events := aset user_id newLinks st.user_calendar_events }
      ⟨AddOutcome.added ins.id ins.htmlLink, st₂, fs,
        tr ++ [Eff.remoteInsert body, Eff.mutLinks, Eff.saveLinks, Eff.send "event added"]⟩

/-- Embedding of AddToCalendarView.add_to_calendar (bot.py lines 191 to 338):
registration gate, shared-event lookup, exact-title pre-check, credential
load and refresh, validity test, remote insert, link recording. -/
def add_to_calendar (st : BotState) (fs : CredsFS) (r : Remote)
    (user_id event_id : String) : OpResult AddOutcome :=
  match alookup user_id st.user_emails with
  | none => ⟨AddOutcome.notRegistered, st, fs, [Eff.send "need to register first"]⟩
  | some ud =>
    match alookup event_id st.shared_events with
    | none => ⟨AddOutcome.eventNotFound, st, fs, [Eff.send "event information not found"]⟩
    | some ev =>
      let c := check_if_user_has_event st fs r user_id ev.name ev.start ev.end_
      if c.found then
        ⟨AddOutcome.alreadyInCalendar, st, c.fs, c.trace ++ [Eff.send "already in your calendar"]⟩
      else
        match alookup ud.creds_file c.fs with
        | none => ⟨AddOutcome.credsMissing, st, c.fs, c.trace ++ [Eff.send "credentials missing"]⟩
        | some (Except.error e) =>
          ⟨AddOutcome.opError e, st, c.fs, c.trace ++ [Eff.send "error adding event"]⟩
        | some (Except.ok none) =>
          ⟨AddOutcome.credsInvalid, st, c.fs, c.trace ++ [Eff.send "credentials invalid"]⟩
        | some (Except.ok (some creds)) =>
          if creds.expired && creds.refresh_token then
            match r.refresh creds with
            | Except.error e =>
              ⟨AddOutcome.opError e, st, c.fs,
                c.trace ++ [Eff.remoteRefresh, Eff.send "error adding event"]⟩
            | Except.ok cr =>
              addInsert st (aset ud.creds_file (Except.ok (some cr)) c.fs) r user_id event_id ev cr
                (c.trace ++ [Eff.remoteRefresh, Eff.writeCreds ud.creds_file])
          else addInsert st c.fs r user_id event_id ev creds c.trace

/-- Outcomes of the creator-only delete button on the shared announcement. -/
inductive DelSharedOutcome where
  | unauthorized
  | deleted (event_name : String)
  | notFound
deriving Repr, DecidableEq

/-- Embedding of AddToCalendarView.delete_shared_event (bot.py lines 341 to
394).  The Discord scheduled-event deletion is wrapped in its own try block
whose failure is only printed, so the discordDeleteOk flag cannot influence
the outcome or the stores; calendar links are never touched here. -/
def delete_shared_event (st : BotState) (fs : CredsFS) (invoker_id creator_id event_id : String)
    (discord_event_id : Option String) (guild_id : Option Int) (discordDeleteOk : Bool) :
    OpResult DelSharedOutcome :=
  if invoker_id ≠ creator_id then
    ⟨DelSharedOutcome.unauthorized, st, fs, [Eff.send "only the event creator can delete"]⟩
  else
    let tr₀ := if discord_event_id.isSome && guild_id.isSome then [Eff.discordDeleteScheduled] else []
    match alookup event_id st.shared_events with
    | some ev =>
      ⟨DelSharedOutcome.deleted ev.name,
        { st with shared_events := aremove event_id st.shared_events }, fs,
        tr₀ ++ [Eff.mutShared, Eff.saveShared, Eff.send "event deleted"]⟩
    | none => ⟨DelSharedOutcome.notFound, st, fs, tr₀ ++ [Eff.send "event not found"]⟩

/-- Removal of a link from the per-user tracking list (bot.py lines 484 to
490 and 557 to 563): only when the user has an entry, filter by the remote
calendar event identifier and save. -/
def removeTracking (st : BotState) (user_id eid : String) : BotState × List Eff :=
  match alookup user_id st.user_calendar_events with
  | none => (st, [])
  | some links =>
    let kept := links.filter (fun l => l.calendar_event_id != eid)
    ({ st with user_calendar_events := aset user_id kept st.user_calendar_events },
     [Eff.mutLinks, Eff.saveLinks])

/-- Outcomes of the remove-after-source-deleted button. -/
inductive RemoveDeletedOutcome where
  | notRegistered
  | notInCalendar
  | credsMissing
  | removed
  | couldNotFind
  | opError (msg : String)
deriving Repr, DecidableEq

/-- Tail of remove_from_calendar after credential preparation: windowed
exact-title query, delete of the first exact match, tracking removal.  The
source performs no credential validity test on this path. -/
def removeQuery (st : BotState) (fs : CredsFS) (r : Remote)
    (user_id event_name event_start event_end : String) (tr : List Eff) :
    OpResult RemoveDeletedOutcome :=
  let start_rfc := addTzSuffix event_start
  let end_rfc := addTzSuffix event_end
  match r.listEvents start_rfc end_rfc event_name with
  | Except.error e =>
    ⟨RemoveDeletedOutcome.opError e, st, fs,
      tr ++ [Eff.remoteList start_rfc end_rfc event_name, Eff.send "error removing event"]⟩
  | Except.ok events =>
    match events.find? (fun e => e.summary == some event_name) with
    | none =>
      ⟨RemoveDeletedOutcome.couldNotFind, st, fs,
        tr ++ [Eff.remoteList start_rfc end_rfc event_name, Eff.send "could not find the event"]⟩
    | some evt =>
      match r.deleteEvent evt.id with
      | Except.error e =>
        ⟨RemoveDeletedOutcome.opError e, st, fs,
          tr ++ [Eff.remoteList start_rfc end_rfc event_name, Eff.remoteDelete evt.id,
            Eff.send "error removing event"]⟩
      | Except.ok _ =>
        let p := removeTracking st user_id evt.id
        ⟨RemoveDeletedOutcome.removed, p.1, fs,
          tr ++ [Eff.remoteList start_rfc end_rfc event_name, Eff.remoteDelete evt.id] ++ p.2 ++
            [Eff.send "removed from your calendar"]⟩

/-- Embedding of RemoveDeletedEventView.remove_from_calendar (bot.py lines
405 to 508): registration gate, exact-title pre-check (must be found),
credential load and refresh, then query and delete with no validity test. -/
def remove_from_calendar (st : BotState) (fs : CredsFS) (r : Remote)
    (user_id event_name event_start event_end : String) : OpResult RemoveDeletedOutcome :=
  match alookup user_id st.user_emails with
  | none => ⟨RemoveDeletedOutcome.notRegistered, st, fs, [Eff.send "not registered"]⟩
  | some ud =>
    let c := check_if_user_has_event st fs r user_id event_name event_start event_end
    if !c.found then
      ⟨RemoveDeletedOutcome.notInCalendar, st, c.fs, c.trace ++ [Eff.send "not in your calendar"]⟩
    else
      match alookup ud.creds_file c.fs with
      | none =>
        ⟨RemoveDeletedOutcome.credsMissing, st, c.fs, c.trace ++ [Eff.send "credentials missing"]⟩
      | some (Except.error e) =>
        ⟨RemoveDeletedOutcome.opError e, st, c.fs, c.trace ++ [Eff.send "error removing event"]⟩
      | some (Except.ok none) =>
        removeQuery st c.fs r user_id event_name event_start event_end c.trace
      | some (Except.ok (some creds)) =>
        if creds.expired && creds.refresh_token then
          match r.refresh creds with
          | Except.error e =>
            ⟨RemoveDeletedOutcome.opError e, st, c.fs,
              c.trace ++ [Eff.remoteRefresh, Eff.send "error removing event"]⟩
          | Except.ok cr =>
            removeQuery st (aset ud.creds_file (Except.ok (some cr)) c.fs) r user_id event_name
              event_start event_end (c.trace ++ [Eff.remoteRefresh, Eff.writeCreds ud.creds_file])
        else removeQuery st c.fs r user_id event_name event_start event_end c.trace

/-- Outcomes of the delete-from-calendar button on the success response. -/
inductive DeleteOutcome where
  | unauthorized
  | credsMissing
  | deleted
  | opError (msg : String)
deriving Repr, DecidableEq

/-- Tail of delete_event after credential preparation: remote delete by the
stored identifier, then tracking removal.  The source performs no credential
validity test on this path. -/
def deleteRemote (st : BotState) (fs : CredsFS) (r : Remote)
    (owner_id calendar_event_id : String) (tr : List Eff) : OpResult DeleteOutcome :=
  match r.deleteEvent calendar_event_id with
  | Except.error e =>
    ⟨DeleteOutcome.opError e, st, fs,
      tr ++ [Eff.remoteDelete calendar_event_id, Eff.send "error deleting event"]⟩
  | Except.ok _ =>
    let p := removeTracking st owner_id calendar_event_id
    ⟨DeleteOutcome.deleted, p.1, fs,
      tr ++ [Eff.remoteDelete calendar_event_id] ++ p.2 ++ [Eff.send "deleted from your calendar"]⟩

/-- Embedding of DeleteEventView.delete_event (bot.py lines 519 to 578):
owner gate, credential load and refresh, remote delete by stored identifier,
tracking removal only after the remote delete succeeded.  A registry lookup
failure raises a KeyError that the surrounding try converts to an error
message. -/
def delete_event (st : BotState) (fs : CredsFS) (r : Remote)
    (invoker_id owner_id calendar_event_id : String) : OpResult DeleteOutcome :=
  if invoker_id ≠ owner_id then
    ⟨DeleteOutcome.unauthorized, st, fs, [Eff.send "not your event to delete"]⟩
  else
    match alookup owner_id st.user_emails with
    | none => ⟨DeleteOutcome.opError "KeyError", st, fs, [Eff.send "error deleting event"]⟩
    | some ud =>
      match alookup ud.creds_file fs with
      | none => ⟨DeleteOutcome.credsMissing, st, fs, [Eff.send "credentials missing"]⟩
      | some (Except.error e) =>
        ⟨DeleteOutcome.opError e, st, fs, [Eff.send "error deleting event"]⟩
      | some (Except.ok none) => deleteRemote st fs r owner_id calendar_event_id []
      | some (Except.ok (some creds)) =>
        if creds.expired && creds.refresh_token then
          match r.refresh creds with
          | Except.error e =>
            ⟨DeleteOutcome.opError e, st, fs, [Eff.remoteRefresh, Eff.send "error deleting event"]⟩
          | Except.ok cr =>
            deleteRemote st (aset ud.creds_file (Except.ok (some cr)) fs) r owner_id
              calendar_event_id [Eff.remoteRefresh, Eff.writeCreds ud.creds_file]
        else deleteRemote st fs r owner_id calendar_event_id []

/-- Outcomes of the unregister command. -/
inductive UnregisterOutcome where
  | notRegistered
  | disconnected
  | uncaughtError (msg : String)
deriving Repr, DecidableEq

/-- Embedding of unregister (bot.py lines 814 to 839).  The os.remove call
is not wrapped in any try block: a failing removal propagates out of the
handler before the registry entry is touched and before any message is
sent.  The removeResult parameter is the outcome of that call when the file
exists. -/
def unregister (st : BotState) (fs : CredsFS) (removeResult : Except String Unit)
    (user_id : String) : OpResult UnregisterOutcome :=
  match alookup user_id st.user_emails with
  | none => ⟨UnregisterOutcome.notRegistered, st, fs, [Eff.send "not registered"]⟩
  | some ud =>
    if (alookup ud.creds_file fs).isSome then
      match removeResult with
      | Except.error e => ⟨UnregisterOutcome.uncaughtError e, st, fs, []⟩
      | Except.ok _ =>
        ⟨UnregisterOutcome.disconnected,
          { st with user_emails := aremove user_id st.user_emails },
          aremove ud.creds_file fs,
          [Eff.removeCredsFile ud.creds_file, Eff.mutUsers, Eff.saveUsers,
            Eff.send "calendar disconnected"]⟩
    else
      ⟨UnregisterOutcome.disconnected,
        { st with user_emails := aremove user_id st.user_emails }, fs,
        [Eff.mutUsers, Eff.saveUsers, Eff.send "calendar disconnected"]⟩

/-- Outcomes of the verify command that completes registration. -/
inductive VerifyOutcome where
  | noPending
  | registered (email : String)
  | opError (msg : String)
deriving Repr, DecidableEq

/-- Embedding of verify (bot.py lines 727 to 812), with the URL and code
parsing left to the fetch oracle since command parsing is out of scope: on
success the credential is pickled to the per-user file, the registry entry
is stored and saved, and the pending flow is dropped. -/
def verify (st : BotState) (fs : CredsFS) (hasPending : Bool) (user_id username : String)
    (fetchResult : Except String Credential) (calendarId : Except String String) :
    OpResult VerifyOutcome :=
  if !hasPending then ⟨VerifyOutcome.noPending, st, fs, [Eff.send "no pending registration"]⟩
  else
    match fetchResult with
    | Except.error e =>
      ⟨VerifyOutcome.opError e, st, fs, [Eff.send "error completing registration"]⟩
    | Except.ok creds =>
      match calendarId with
      | Except.error e =>
        ⟨VerifyOutcome.opError e, st, fs, [Eff.send "error completing registration"]⟩
      | Except.ok email =>
        let cf := "userdata/user_creds_" ++ user_id ++ ".pickle"
        let st₂ := { st with user_emails := aset user_id (UserData.mk email username cf) st.user_emails }
        ⟨VerifyOutcome.registered email, st₂, aset cf (Except.ok (some creds)) fs,
          [Eff.writeCreds cf, Eff.mutUsers, Eff.saveUsers, Eff.send "registration complete"]⟩

/-- Naive local datetime as produced by datetime.strptime: no timezone
information is attached. -/
structure NaiveDT where
  year : Nat
  month : Nat
  day : Nat
  hour : Nat
  minute : Nat
  second : Nat
deriving Repr, DecidableEq

/-- Day count from civil date relative to 1970-01-01 (proleptic Gregorian). -/
def days_from_civil (y₀ m d : Int) : Int :=
  let y := if m ≤ 2 then y₀ - 1 else y₀
  let era := (if y ≥ 0 then y else y - 399) / 400
  let yoe := y - era * 400
  let doy := (153 * (if m > 2 then m - 3 else m + 9) + 2) / 5 + d - 1
  let doe := yoe * 365 + yoe / 4 - yoe / 100 + doy
  era * 146097 + doe - 719468

/-- Civil date from a day count relative to 1970-01-01. -/
def civil_from_days (z₀ : Int) : Int × Int × Int :=
  let z := z₀ + 719468
  let era := (if z ≥ 0 then z else z - 146096) / 146097
  let doe := z - era * 146097
  let yoe := (doe - doe / 1460 + doe / 36524 - doe / 146096) / 365
  let y := yoe + era * 400
  let doy := doe - (365 * yoe + yoe / 4 - yoe / 100)
  let mp := (5 * doy + 2) / 153
  let d := doy - (153 * mp + 2) / 5 + 1
  let m := if mp < 10 then mp + 3 else mp - 9
  (if m ≤ 2 then y + 1 else y, m, d)

/-- Absolute second count of a naive datetime. -/
def NaiveDT.toSeconds (dt : NaiveDT) : Int :=
  days_from_civil dt.year dt.month dt.day * 86400 +
    dt.hour * 3600 + dt.minute * 60 + dt.second

/-- Naive datetime from an absolute second count. -/
def NaiveDT.ofSeconds (s : Int) : NaiveDT :=
  let days := Int.fdiv s 86400
  let rem := Int.fmod s 86400
  let c := civil_from_days days
  ⟨c.1.toNat, c.2.1.toNat, c.2.2.toNat,
    (rem / 3600).toNat, ((rem % 3600) / 60).toNat, (rem % 60).toNat⟩

/-- Addition of a duration in hours, mirroring event_dt + timedelta with the
duration converted to whole seconds. -/
def NaiveDT.addHours (dt : NaiveDT) (hours : Rat) : NaiveDT :=
  NaiveDT.ofSeconds (dt.toSeconds + ⌊hours * 3600⌋)

/-- Two-digit zero padding. -/
def pad2 (n : Nat) : String := (if n < 10 then "0" else "") ++ toString n

/-- Four-digit zero padding. -/
def pad4 (n : Nat) : String :=
  (if n < 10 then "000" else if n < 100 then "00" else if n < 1000 then "0" else "") ++ toString n

/-- The isoformat method of a naive datetime: date and time separated by T,
with no timezone designator of any kind. -/
def NaiveDT.isoformat (dt : NaiveDT) : String :=
  pad4 dt.year ++ "-" ++ pad2 dt.month ++ "-" ++ pad2 dt.day ++ "T" ++
    pad2 dt.hour ++ ":" ++ pad2 dt.minute ++ ":" ++ pad2 dt.second

/-- Outcomes of the create_event command. -/
inductive CreateOutcome where
  | invalidDuration
  | invalidFormat
  | created (event_id : String)
deriving Repr, DecidableEq

/-- Embedding of create_event (bot.py lines 850 to 1013).  Date and time
string parsing is out of scope (spec section 1), so the parsed result of the
strptime loop enters as a parameter; new_event_id stands for the generated
uuid4, and discordResult for the guild scheduled-event creation, whose
failure is only printed and does not abort the command. -/
def create_event (st : BotState) (fs : CredsFS) (creator_id : String) (guild_id : Int)
    (new_event_id : String) (parsed : Option NaiveDT) (discordResult : Except String String)
    (name : String) (description : Option String) (duration : Rat) (location : Option String) :
    OpResult CreateOutcome :=
  if duration ≤ 0 then
    ⟨CreateOutcome.invalidDuration, st, fs, [Eff.send "duration must be greater than 0"]⟩
  else
    match parsed with
    | none => ⟨CreateOutcome.invalidFormat, st, fs, [Eff.send "invalid date or time format"]⟩
    | some event_dt =>
      let end_dt := event_dt.addHours duration
      let ev : SharedEvent :=
        { name := name
          description := description.getD ""
          start := event_dt.isoformat
          end_ := end_dt.isoformat
          creator_id := creator_id
          location := location.getD ""
          discord_event_id := none
          guild_id := none }
      let st₁ := { st with shared_events := aset new_event_id ev st.shared_events }
      match discordResult with
      | Except.ok did =>
        let ev₂ := { ev with discord_event_id := some did, guild_id := some guild_id }
        let st₂ := { st₁ with shared_events := aset new_event_id ev₂ st₁.shared_events }
        ⟨CreateOutcome.created new_event_id, st₂, fs,
          [Eff.mutShared, Eff.saveShared, Eff.discordCreateScheduled, Eff.mutShared,
            Eff.saveShared, Eff.send "event created"]⟩
      | Except.error _ =>
        ⟨CreateOutcome.created new_event_id, st₁, fs,
          [Eff.mutShared, Eff.saveShared, Eff.discordCreateScheduled, Eff.send "event created"]⟩

/-- Effects that neither mutate a store, nor save one, nor acknowledge. -/
def neutralEff : Eff → Bool
  | Eff.mutUsers => false
  | Eff.mutShared => false
  | Eff.mutLinks => false
  | Eff.saveUsers => false
  | Eff.saveShared => false
  | Eff.saveLinks => false
  | Eff.send _ => false
  | _ => true

/-- Scan of a trace tracking which stores hold unsaved mutations: a save of
the matching store clears the pending flag, and a user-facing message is
allowed only when nothing is pending; at the end nothing may be pending. -/
def persistedOkAux : Bool → Bool → Bool → List Eff → Bool
  | pu, ps, pl, [] => !pu && !ps && !pl
  | _, ps, pl, Eff.mutUsers :: rest => persistedOkAux true ps pl rest
  | pu, _, pl, Eff.mutShared :: rest => persistedOkAux pu true pl rest
  | pu, ps, _, Eff.mutLinks :: rest => persistedOkAux pu ps true rest
  | _, ps, pl, Eff.saveUsers :: rest => persistedOkAux false ps pl rest
  | pu, _, pl, Eff.saveShared :: rest => persistedOkAux pu false pl rest
  | pu, ps, _, Eff.saveLinks :: rest => persistedOkAux pu ps false rest
  | pu, ps, pl, Eff.send _ :: rest => (!pu && !ps && !pl) && persistedOkAux pu ps pl rest
  | pu, ps, pl, _ :: rest => persistedOkAux pu ps pl rest

/-- A trace persists every store mutation before any acknowledgement and
before the operation returns. -/
def persistedOk (t : List Eff) : Bool := persistedOkAux false false false t

/-- Occurrence order in a trace: some occurrence of the first effect is
strictly followed by an occurrence of the second. -/
def occursBefore (a b : Eff) : List Eff → Bool
  | [] => false
  | e :: rest => (e == a && rest.contains b) || occursBefore a b rest

/-- Remote calendar or refresh calls. -/
def remoteEff : Eff → Bool
  | Eff.remoteRefresh => true
  | Eff.remoteList _ _ _ => true
  | Eff.remoteInsert _ => true
  | Eff.remoteDelete _ => true
  | _ => false

/-- A timestamp string carries an explicit offset designator in the sense of
the suffix normalization: it ends in Z, contains a plus sign, or has a third
dash (the start of a negative offset). -/
def hasOffsetMarker (s : String) : Bool :=
  endsWithChar s 'Z' || containsChar s '+' || !(dashCount s == 2)

/-- Concrete fixtures used by the witness and counterexample theorems. -/
def wUD : UserData := UserData.mk "a@example.com" "alice" "f1"

def wCred : Credential := Credential.mk true false false

def wEv : SharedEvent :=
  SharedEvent.mk "Standup" "daily" "2025-01-10T09:00:00" "2025-01-10T10:00:00" "u1" "" none none

def wSt : BotState := BotState.mk [("u1", wUD)] [("e1", wEv)] []

def wFs : CredsFS := [("f1", Except.ok (some wCred))]

def wRemoteFound : Remote :=
  Remote.mk (fun c => Except.ok { c with expired := false })
    (fun _ _ _ => Except.ok [RemoteEvent.mk "rid1" (some "Standup")])
    (fun _ => Except.ok (InsertedEvent.mk "cid9" "link9"))
    (fun _ => Except.ok ())

def wRemoteEmpty : Remote :=
  Remote.mk (fun c => Except.ok { c with expired := false })
    (fun _ _ _ => Except.ok [])
    (fun _ => Except.ok (InsertedEvent.mk "cid9" "link9"))
    (fun _ => Except.ok ())

def wRemoteFailRefresh : Remote :=
  Remote.mk (fun _ => Except.error "boom")
    (fun _ _ _ => Except.ok [])
    (fun _ => Except.ok (InsertedEvent.mk "cid9" "link9"))
    (fun _ => Except.ok ())

def wRemoteFailDelete : Remote :=
  Remote.mk (fun c => Except.ok { c with expired := false })
    (fun _ _ _ => Except.ok [])
    (fun _ => Except.ok (InsertedEvent.mk "cid9" "link9"))
    (fun _ => Except.error "remote delete rejected")

/-- Credential that is expired and holds no refresh token, hence invalid. -/
def cCred : Credential := Credential.mk true true false

def cSt : BotState :=
  BotState.mk [("u1", wUD)] [("e1", wEv)] [("u1", [CalendarLink.mk "cal1" "Standup" "e1"])]

def cFs : CredsFS := [("f1", Except.ok (some cCred))]

/-- Credential that is expired but refreshable. -/
def rCred : Credential := Credential.mk true true true

def rFs : CredsFS := [("f1", Except.ok (some rCred))]

theorem alookup_aremove {α : Type} (k : String) (l : List (String × α)) :
    alookup k (aremove k l) = none := by
  induction l with
  | nil => rfl
  | cons p rest ih =>
    unfold aremove at ih ⊢
    by_cases h : p.1 = k
    · simpa [List.filter_cons, h] using ih
    · simpa [List.filter_cons, h, alookup] using ih

theorem alookup_aset_self {α : Type} (k : String) (v : α) (l : List (String × α)) :
    alookup k (aset k v l) = some v := by
  induction l with
  | nil => simp [aset, alookup]
  | cons p rest ih =>
    obtain ⟨k₂, v₂⟩ := p
    by_cases h : k₂ = k
    · simp [aset, h, alookup]
    · simp [aset, h, alookup, ih]

theorem persistedOkAux_neutral_append (t rest : List Eff) (pu ps pl : Bool)
    (ht : t.all neutralEff = true) :
    persistedOkAux pu ps pl (t ++ rest) = persistedOkAux pu ps pl rest := by
  induction t generalizing pu ps pl with
  | nil => rfl
  | cons e t ih =>
    simp only [List.all_cons, Bool.and_eq_true] at ht
    obtain ⟨he, ht₂⟩ := ht
    cases e with
    | mutUsers => simp [neutralEff] at he
    | mutShared => simp [neutralEff] at he
    | mutLinks => simp [neutralEff] at he
    | saveUsers => simp [neutralEff] at he
    | saveShared => simp [neutralEff] at he
    | saveLinks => simp [neutralEff] at he
    | send m => simp [neutralEff] at he
    | remoteRefresh => simp only [List.cons_append, persistedOkAux]; exact ih _ _ _ ht₂
    | remoteList a b q => simp only [List.cons_append, persistedOkAux]; exact ih _ _ _ ht₂
    | remoteInsert b => simp only [List.cons_append, persistedOkAux]; exact ih _ _ _ ht₂
    | remoteDelete i => simp only [List.cons_append, persistedOkAux]; exact ih _ _ _ ht₂
    | writeCreds f => simp only [List.cons_append, persistedOkAux]; exact ih _ _ _ ht₂
    | removeCredsFile f => simp only [List.cons_append, persistedOkAux]; exact ih _ _ _ ht₂
    | discordDeleteScheduled => simp only [List.cons_append, persistedOkAux]; exact ih _ _ _ ht₂
    | discordCreateScheduled => simp only [List.cons_append, persistedOkAux]; exact ih _ _ _ ht₂

theorem checkQuery_trace_neutral (r : Remote) (creds : Credential)
    (nm s e : String) (fs : CredsFS) (tr : List Eff) (ht : tr.all neutralEff = true) :
    (checkQuery r creds nm s e fs tr).trace.all neutralEff = true := by
  unfold checkQuery
  cases hv : creds.valid <;>
    cases hl : r.listEvents (addTzSuffix s) (addTzSuffix e) nm <;>
      simp [hv, hl, List.all_append, ht, neutralEff]

theorem check_trace_neutral (st : BotState) (fs : CredsFS) (r : Remote)
    (uid nm s e : String) :
    (check_if_user_has_event st fs r uid nm s e).trace.all neutralEff = true := by
  unfold check_if_user_has_event
  split
  · rfl
  · split
    · rfl
    · rfl
    · rfl
    · split
      · split
        · rfl
        · exact checkQuery_trace_neutral _ _ _ _ _ _ _ (by rfl)
      · exact checkQuery_trace_neutral _ _ _ _ _ _ _ (by rfl)

theorem persistedOk_append_neutral (t rest : List Eff) (ht : t.all neutralEff = true) :
    persistedOk (t ++ rest) = persistedOk rest :=
  persistedOkAux_neutral_append t rest false false false ht

theorem addTzSuffix_marker (s : String) :
    addTzSuffix s = if hasOffsetMarker s then s else s ++ "-08:00" := by
  unfold addTzSuffix hasOffsetMarker
  cases h₁ : endsWithChar s 'Z' <;>
    cases h₂ : containsChar s '+' <;>
      cases h₃ : (dashCount s == 2) <;> simp

/-- C1: add-to-calendar is idempotent.  For a registered user with a valid
unexpired credential and an existing shared event, when the remote window
query returns some event whose summary exactly equals the shared event
title, the handler answers already-in-calendar, mutates no store, persists
nothing, performs no remote insert and records no calendar link; and the
decision is blind to the locally stored links (hence to any stored remote
identifier), as the outcome is unchanged under any replacement of the link
index. -/
theorem add_to_calendar_idempotent
    (st : BotState) (fs : CredsFS) (r : Remote) (user_id event_id : String)
    (ud : UserData) (ev : SharedEvent) (c : Credential) (evs : List RemoteEvent)
    (hu : alookup user_id st.user_emails = some ud)
    (he : alookup event_id st.shared_events = some ev)
    (hc : alookup ud.creds_file fs = some (Except.ok (some c)))
    (hexp : c.expired = false) (htok : c.token = true)
    (hl : r.listEvents (addTzSuffix ev.start) (addTzSuffix ev.end_) ev.name = Except.ok evs)
    (hm : evs.any (fun e => e.summary == some ev.name) = true) :
    (add_to_calendar st fs r user_id event_id).outcome = AddOutcome.alreadyInCalendar ∧
    (add_to_calendar st fs r user_id event_id).st = st ∧
    (add_to_calendar st fs r user_id event_id).fs = fs ∧
    (∀ b, Eff.remoteInsert b ∉ (add_to_calendar st fs r user_id event_id).trace) ∧
    Eff.mutLinks ∉ (add_to_calendar st fs r user_id event_id).trace ∧
    (∀ links, (add_to_calendar (BotState.mk st.user_emails st.shared_events links)
        fs r user_id event_id).outcome = AddOutcome.alreadyInCalendar) := by
  have hck : ∀ links, check_if_user_has_event (BotState.mk st.user_emails st.shared_events links)
      fs r user_id ev.name ev.start ev.end_ =
      CheckResult.mk true fs [Eff.remoteList (addTzSuffix ev.start) (addTzSuffix ev.end_) ev.name] := by
    intro links
    unfold check_if_user_has_event
    simp [checkQuery, Credential.valid, hu, hc, hexp, htok, hl, hm]
  have key : ∀ links, add_to_calendar (BotState.mk st.user_emails st.shared_events links)
      fs r user_id event_id =
      OpResult.mk AddOutcome.alreadyInCalendar (BotState.mk st.user_emails st.shared_events links)
        fs [Eff.remoteList (addTzSuffix ev.start) (addTzSuffix ev.end_) ev.name,
          Eff.send "already in your calendar"] := by
    intro links
    unfold add_to_calendar
    simp [hu, he, hck links]
  have hst : add_to_calendar st fs r user_id event_id =
      OpResult.mk AddOutcome.alreadyInCalendar st fs
        [Eff.remoteList (addTzSuffix ev.start) (addTzSuffix ev.end_) ev.name,
          Eff.send "already in your calendar"] := key st.user_calendar_events
  refine ⟨?_, ?_, ?_, ?_, ?_, ?_⟩
  · rw [hst]
  · rw [hst]
  · rw [hst]
  · intro b
    rw [hst]
    simp
  · rw [hst]
    simp
  · intro links
    rw [key links]

/-- C1 witness: concrete scenario in which the remote calendar already holds
an exact-title copy of the shared event. -/
theorem add_to_calendar_idempotent_witness :
    (add_to_calendar wSt wFs wRemoteFound "u1" "e1").outcome = AddOutcome.alreadyInCalendar :=
  (add_to_calendar_idempotent wSt wFs wRemoteFound "u1" "e1" wUD wEv wCred
    [RemoteEvent.mk "rid1" (some "Standup")]
    (by decide) (by decide) (by decide) (by decide) (by decide) rfl (by decide)).1

/-- C3: deleting a shared event is creator-only and leaves calendar links
alone.  A non-creator invocation is rejected with no state change; the
creator invocation removes the shared event record (a subsequent lookup is
absent), leaves the registry and every calendar link untouched, issues no
remote calendar delete, and its result does not depend on whether the
best-effort Discord scheduled-event deletion succeeds. -/
theorem delete_shared_event_spec
    (st : BotState) (fs : CredsFS) (invoker eid : String) (ev : SharedEvent)
    (dei : Option String) (gid : Option Int) (ok : Bool)
    (he : alookup eid st.shared_events = some ev) :
    (invoker ≠ ev.creator_id →
      delete_shared_event st fs invoker ev.creator_id eid dei gid ok =
        OpResult.mk DelSharedOutcome.unauthorized st fs
          [Eff.send "only the event creator can delete"]) ∧
    (invoker = ev.creator_id →
      (delete_shared_event st fs invoker ev.creator_id eid dei gid ok).outcome =
          DelSharedOutcome.deleted ev.name ∧
      alookup eid
        (delete_shared_event st fs invoker ev.creator_id eid dei gid ok).st.shared_events = none ∧
      (delete_shared_event st fs invoker ev.creator_id eid dei gid ok).st.user_calendar_events =
        st.user_calendar_events ∧
      (delete_shared_event st fs invoker ev.creator_id eid dei gid ok).st.user_emails =
        st.user_emails ∧
      (delete_shared_event st fs invoker ev.creator_id eid dei gid ok).fs = fs ∧
      (∀ cid, Eff.remoteDelete cid ∉
        (delete_shared_event st fs invoker ev.creator_id eid dei gid ok).trace) ∧
      delete_shared_event st fs invoker ev.creator_id eid dei gid true =
        delete_shared_event st fs invoker ev.creator_id eid dei gid false) := by
  constructor
  · intro h
    unfold delete_shared_event
    simp [h]
  · intro h
    have hres : delete_shared_event st fs invoker ev.creator_id eid dei gid ok =
        OpResult.mk (DelSharedOutcome.deleted ev.name)
          (BotState.mk st.user_emails (aremove eid st.shared_events) st.user_calendar_events) fs
          ((if dei.isSome && gid.isSome then [Eff.discordDeleteScheduled] else []) ++
            [Eff.mutShared, Eff.saveShared, Eff.send "event deleted"]) := by
      unfold delete_shared_event
      simp [h, he]
    refine ⟨?_, ?_, ?_, ?_, ?_, ?_, ?_⟩
    · rw [hres]
    · rw [hres]
      exact alookup_aremove eid st.shared_events
    · rw [hres]
    · rw [hres]
    · rw [hres]
    · intro cid
      rw [hres]
      split <;> simp
    · rfl

/-- C3 witness: a non-creator is rejected on the concrete scenario. -/
theorem delete_shared_event_spec_witness :
    delete_shared_event wSt wFs "u2" wEv.creator_id "e1" none none true =
      OpResult.mk DelSharedOutcome.unauthorized wSt wFs
        [Eff.send "only the event creator can delete"] :=
  (delete_shared_event_spec wSt wFs "u2" "e1" wEv none none true (by decide)).1 (by decide)

/-- C4: delete-from-calendar is owner-only and remote-first.  A non-owner
invocation changes nothing; an owner invocation issues the remote delete by
the stored identifier, and when that delete fails the link index is left
intact and the failure surfaces as an error outcome, while on success the
remote delete strictly precedes the link-index mutation and exactly the
links with that remote identifier are dropped. -/
theorem delete_from_calendar_spec
    (st : BotState) (fs : CredsFS) (r : Remote) (invoker owner cid : String) :
    (invoker ≠ owner →
      delete_event st fs r invoker owner cid =
        OpResult.mk DeleteOutcome.unauthorized st fs [Eff.send "not your event to delete"]) ∧
    (∀ ud c e, alookup owner st.user_emails = some ud →
      alookup ud.creds_file fs = some (Except.ok (some c)) →
      (c.expired && c.refresh_token) = false →
      r.deleteEvent cid = Except.error e →
      (delete_event st fs r owner owner cid).outcome = DeleteOutcome.opError e ∧
      (delete_event st fs r owner owner cid).st = st ∧
      Eff.mutLinks ∉ (delete_event st fs r owner owner cid).trace) ∧
    (∀ ud c links, alookup owner st.user_emails = some ud →
      alookup ud.creds_file fs = some (Except.ok (some c)) →
      (c.expired && c.refresh_token) = false →
      r.deleteEvent cid = Except.ok () →
      alookup owner st.user_calendar_events = some links →
      occursBefore (Eff.remoteDelete cid) Eff.mutLinks
          (delete_event st fs r owner owner cid).trace = true ∧
      alookup owner (delete_event st fs r owner owner cid).st.user_calendar_events =
        some (links.filter (fun l => l.calendar_event_id != cid))) := by
  refine ⟨?_, ?_, ?_⟩
  · intro h
    unfold delete_event
    simp [h]
  · intro ud c e hu hc hg hd
    have hres : delete_event st fs r owner owner cid =
        OpResult.mk (DeleteOutcome.opError e) st fs
          [Eff.remoteDelete cid, Eff.send "error deleting event"] := by
      unfold delete_event deleteRemote
      simp [hu, hc, hg, hd]
    rw [hres]
    refine ⟨rfl, rfl, by simp⟩
  · intro ud c links hu hc hg hd hl
    have hres : delete_event st fs r owner owner cid =
        OpResult.mk DeleteOutcome.deleted
          (BotState.mk st.user_emails st.shared_events
            (aset owner (links.filter (fun l => l.calendar_event_id != cid))
              st.user_calendar_events)) fs
          [Eff.remoteDelete cid, Eff.mutLinks, Eff.saveLinks,
            Eff.send "deleted from your calendar"] := by
      unfold delete_event deleteRemote removeTracking
      simp [hu, hc, hg, hd, hl]
    rw [hres]
    constructor
    · simp [occursBefore, List.contains]
    · exact alookup_aset_self owner _ st.user_calendar_events

/-- C4 witness: a failing remote delete leaves the link index intact on the
concrete fixture. -/
theorem delete_from_calendar_spec_witness :
    (delete_event cSt cFs wRemoteFailDelete "u1" "u1" "cal1").outcome =
        DeleteOutcome.opError "remote delete rejected" ∧
      (delete_event cSt cFs wRemoteFailDelete "u1" "u1" "cal1").st = cSt :=
  ⟨((delete_from_calendar_spec cSt cFs wRemoteFailDelete "u1" "u1" "cal1").2.1 wUD cCred
      "remote delete rejected" (by decide) (by decide) (by decide) rfl).1,
    ((delete_from_calendar_spec cSt cFs wRemoteFailDelete "u1" "u1" "cal1").2.1 wUD cCred
      "remote delete rejected" (by decide) (by decide) (by decide) rfl).2.1⟩

/-- C6: an unregistered user is turned away before any remote work.  When
the registry has no entry for the user, add-to-calendar reports
not-registered with both stores and the credential files unchanged and a
trace free of remote calls; and immediately after a successful unregister
the same holds for that user. -/
theorem add_to_calendar_not_registered
    (st : BotState) (fs : CredsFS) (r : Remote) (uid eid : String) :
    (alookup uid st.user_emails = none →
      add_to_calendar st fs r uid eid =
        OpResult.mk AddOutcome.notRegistered st fs [Eff.send "need to register first"] ∧
      (∀ e ∈ (add_to_calendar st fs r uid eid).trace, remoteEff e = false)) ∧
    (∀ ud, alookup uid st.user_emails = some ud →
      (add_to_calendar (unregister st fs (Except.ok ()) uid).st
          (unregister st fs (Except.ok ()) uid).fs r uid eid).outcome =
        AddOutcome.notRegistered) := by
  constructor
  · intro h
    have hres : add_to_calendar st fs r uid eid =
        OpResult.mk AddOutcome.notRegistered st fs [Eff.send "need to register first"] := by
      unfold add_to_calendar
      simp [h]
    refine ⟨hres, ?_⟩
    rw [hres]
    simp [remoteEff]
  · intro ud hu
    have hnone : alookup uid (unregister st fs (Except.ok ()) uid).st.user_emails = none := by
      unfold unregister
      simp only [hu]
      split
      · exact alookup_aremove uid st.user_emails
      · exact alookup_aremove uid st.user_emails
    unfold add_to_calendar
    simp [hnone]

/-- C6 witness: a never-registered user on the concrete scenario. -/
theorem add_to_calendar_not_registered_witness :
    add_to_calendar wSt wFs wRemoteEmpty "u2" "e1" =
      OpResult.mk AddOutcome.notRegistered wSt wFs [Eff.send "need to register first"] :=
  ((add_to_calendar_not_registered wSt wFs wRemoteEmpty "u2" "e1").1 (by decide)).1

/-- C7: the existence check is fail-open.  Whatever the reason the check
cannot positively confirm the event — the user is not registered, the
credential file is missing or unreadable or holds nothing, the refresh
exchange fails, the credential is invalid before or after refresh, or the
remote window query fails — the answer is found = false rather than an
error. -/
theorem check_fail_open
    (st : BotState) (fs : CredsFS) (r : Remote) (uid nm s e : String) :
    (alookup uid st.user_emails = none →
      (check_if_user_has_event st fs r uid nm s e).found = false) ∧
    (∀ ud, alookup uid st.user_emails = some ud →
      alookup ud.creds_file fs = none →
      (check_if_user_has_event st fs r uid nm s e).found = false) ∧
    (∀ ud m, alookup uid st.user_emails = some ud →
      alookup ud.creds_file fs = some (Except.error m) →
      (check_if_user_has_event st fs r uid nm s e).found = false) ∧
    (∀ ud, alookup uid st.user_emails = some ud →
      alookup ud.creds_file fs = some (Except.ok none) →
      (check_if_user_has_event st fs r uid nm s e).found = false) ∧
    (∀ ud c m, alookup uid st.user_emails = some ud →
      alookup ud.creds_file fs = some (Except.ok (some c)) →
      (c.expired && c.refresh_token) = true → r.refresh c = Except.error m →
      (check_if_user_has_event st fs r uid nm s e).found = false) ∧
    (∀ ud c, alookup uid st.user_emails = some ud →
      alookup ud.creds_file fs = some (Except.ok (some c)) →
      (c.expired && c.refresh_token) = false → c.valid = false →
      (check_if_user_has_event st fs r uid nm s e).found = false) ∧
    (∀ ud c c₂, alookup uid st.user_emails = some ud →
      alookup ud.creds_file fs = some (Except.ok (some c)) →
      (c.expired && c.refresh_token) = true → r.refresh c = Except.ok c₂ →
      c₂.valid = false →
      (check_if_user_has_event st fs r uid nm s e).found = false) ∧
    (∀ ud c m, alookup uid st.user_emails = some ud →
      alookup ud.creds_file fs = some (Except.ok (some c)) →
      (c.expired && c.refresh_token) = false → c.valid = true →
      r.listEvents (addTzSuffix s) (addTzSuffix e) nm = Except.error m →
      (check_if_user_has_event st fs r uid nm s e).found = false) := by
  refine ⟨?_, ?_, ?_, ?_, ?_, ?_, ?_, ?_⟩
  · intro h
    unfold check_if_user_has_event
    simp [h]
  · intro ud hu hc
    unfold check_if_user_has_event
    simp [hu, hc]
  · intro ud m hu hc
    unfold check_if_user_has_event
    simp [hu, hc]
  · intro ud hu hc
    unfold check_if_user_has_event
    simp [hu, hc]
  · intro ud c m hu hc hg hr
    unfold check_if_user_has_event
    simp [hu, hc, hg, hr]
  · intro ud c hu hc hg hv
    unfold check_if_user_has_event
    simp [checkQuery, hu, hc, hg, hv]
  · intro ud c c₂ hu hc hg hr hv
    unfold check_if_user_has_event
    simp [checkQuery, hu, hc, hg, hr, hv]
  · intro ud c m hu hc hg hv hl
    unfold check_if_user_has_event
    simp [checkQuery, hu, hc, hg, hv, hl]

/-- C7 witness: a user with no registry entry yields found = false. -/
theorem check_fail_open_witness :
    (check_if_user_has_event wSt wFs wRemoteEmpty "u2" "Standup"
      "2025-01-10T09:00:00" "2025-01-10T10:00:00").found = false :=
  (check_fail_open wSt wFs wRemoteEmpty "u2" "Standup"
    "2025-01-10T09:00:00" "2025-01-10T10:00:00").1 (by decide)

/-- C10: a non-positive duration aborts create_event before any state
change: the error is reported, the stores and files are untouched, nothing
is saved, and no Discord scheduled event is requested. -/
theorem create_event_nonpositive_duration
    (st : BotState) (fs : CredsFS) (creator : String) (guild : Int) (nid : String)
    (parsed : Option NaiveDT) (dres : Except String String) (name : String)
    (desc : Option String) (dur : Rat) (loc : Option String)
    (hd : dur ≤ 0) :
    create_event st fs creator guild nid parsed dres name desc dur loc =
      OpResult.mk CreateOutcome.invalidDuration st fs
        [Eff.send "duration must be greater than 0"] ∧
    Eff.discordCreateScheduled ∉
      (create_event st fs creator guild nid parsed dres name desc dur loc).trace ∧
    Eff.saveShared ∉ (create_event st fs creator guild nid parsed dres name desc dur loc).trace := by
  have hres : create_event st fs creator guild nid parsed dres name desc dur loc =
      OpResult.mk CreateOutcome.invalidDuration st fs
        [Eff.send "duration must be greater than 0"] := by
    unfold create_event
    simp [hd]
  refine ⟨hres, ?_, ?_⟩ <;> rw [hres] <;> simp

/-- C10 witness: duration zero on the concrete scenario. -/
theorem create_event_nonpositive_duration_witness :
    create_event wSt wFs "u1" 5 "e2" (some (NaiveDT.mk 2025 1 10 9 0 0)) (Except.error "x")
        "Standup" none 0 none =
      OpResult.mk CreateOutcome.invalidDuration wSt wFs
        [Eff.send "duration must be greater than 0"] :=
  (create_event_nonpositive_duration wSt wFs "u1" 5 "e2" (some (NaiveDT.mk 2025 1 10 9 0 0))
    (Except.error "x") "Standup" none 0 none (by decide)).1

/-- C2 counterexample: the claim fails on delete-from-calendar and on a
failed refresh.  With the stored credential expired and holding no refresh
token (hence invalid), the owner invocation of delete-from-calendar does
not yield a credential-invalid outcome: it issues the remote delete and
reports success.  And in add-to-calendar a failed refresh exchange surfaces
as a generic operation error, not as the credential-invalid outcome. -/
theorem ensure_valid_counterexample :
    cCred.expired = true ∧ cCred.refresh_token = false ∧ cCred.valid = false ∧
    (delete_event cSt cFs wRemoteEmpty "u1" "u1" "cal1").outcome = DeleteOutcome.deleted ∧
    Eff.remoteDelete "cal1" ∈ (delete_event cSt cFs wRemoteEmpty "u1" "u1" "cal1").trace ∧
    rCred.expired = true ∧ rCred.refresh_token = true ∧
    (add_to_calendar wSt rFs wRemoteFailRefresh "u1" "e1").outcome =
      AddOutcome.opError "boom" := by
  decide

/-- C2 amended: credential handling before each remote call.  Every
operation leaves an unexpired credential as-is (no refresh exchange, no
write-back) and refreshes an expired credential that holds a refresh token,
persisting the refreshed credential to the user credential file before any
remote calendar call — shown here for the existence check,
delete-from-calendar and remove-after-source-deleted, and for
add-to-calendar before the insert.  Only add-to-calendar and the existence
check then test validity: add-to-calendar reports credential-invalid and
performs no insert when the loaded credential is invalid and not
refreshable, while a failed refresh surfaces as a generic error outcome;
delete-from-calendar performs no validity test at all and issues the
remote delete even when the stored credential is expired with no refresh
token; remove-after-source-deleted likewise has no validity test after
loading, but its fail-closed exact-title pre-check answers not-found for
an invalid non-refreshable credential, so that handler stops with a
not-in-calendar outcome before any remote call and with nothing changed. -/
theorem ensure_valid_amended :
    (∀ st fs r o cid ud c, alookup o st.user_emails = some ud →
      alookup ud.creds_file fs = some (Except.ok (some c)) →
      c.expired = false →
      (delete_event st fs r o o cid).fs = fs ∧
      Eff.remoteRefresh ∉ (delete_event st fs r o o cid).trace) ∧
    (∀ st fs r o cid ud c c₂, alookup o st.user_emails = some ud →
      alookup ud.creds_file fs = some (Except.ok (some c)) →
      c.expired = true → c.refresh_token = true → r.refresh c = Except.ok c₂ →
      alookup ud.creds_file (delete_event st fs r o o cid).fs =
        some (Except.ok (some c₂)) ∧
      occursBefore (Eff.writeCreds ud.creds_file) (Eff.remoteDelete cid)
        (delete_event st fs r o o cid).trace = true) ∧
    (∀ st fs r uid eid ud ev c, alookup uid st.user_emails = some ud →
      alookup eid st.shared_events = some ev →
      alookup ud.creds_file fs = some (Except.ok (some c)) →
      (c.expired && c.refresh_token) = false → c.valid = false →
      (add_to_calendar st fs r uid eid).outcome = AddOutcome.credsInvalid ∧
      (∀ b, Eff.remoteInsert b ∉ (add_to_calendar st fs r uid eid).trace)) ∧
    (∀ st fs r o cid ud c, alookup o st.user_emails = some ud →
      alookup ud.creds_file fs = some (Except.ok (some c)) →
      c.expired = true → c.refresh_token = false →
      Eff.remoteDelete cid ∈ (delete_event st fs r o o cid).trace) ∧
    (∀ st fs r uid eid ud ev c m, alookup uid st.user_emails = some ud →
      alookup eid st.shared_events = some ev →
      alookup ud.creds_file fs = some (Except.ok (some c)) →
      c.expired = true → c.refresh_token = true → r.refresh c = Except.error m →
      (add_to_calendar st fs r uid eid).outcome = AddOutcome.opError m) ∧
    (∀ st fs r uid eid ud ev c c₂ ins, alookup uid st.user_emails = some ud →
      alookup eid st.shared_events = some ev →
      alookup ud.creds_file fs = some (Except.ok (some c)) →
      c.expired = true → c.refresh_token = true → r.refresh c = Except.ok c₂ →
      c₂.expired = false → c₂.token = true →
      r.listEvents (addTzSuffix ev.start) (addTzSuffix ev.end_) ev.name = Except.ok [] →
      r.insertEvent (eventBody ev) = Except.ok ins →
      alookup ud.creds_file (add_to_calendar st fs r uid eid).fs =
        some (Except.ok (some c₂)) ∧
      occursBefore (Eff.writeCreds ud.creds_file) (Eff.remoteInsert (eventBody ev))
        (add_to_calendar st fs r uid eid).trace = true) ∧
    (∀ st fs r uid nm s e ud c, alookup uid st.user_emails = some ud →
      alookup ud.creds_file fs = some (Except.ok (some c)) →
      c.expired = false →
      (check_if_user_has_event st fs r uid nm s e).fs = fs ∧
      Eff.remoteRefresh ∉ (check_if_user_has_event st fs r uid nm s e).trace) ∧
    (∀ st fs r uid nm s e ud c c₂, alookup uid st.user_emails = some ud →
      alookup ud.creds_file fs = some (Except.ok (some c)) →
      c.expired = true → c.refresh_token = true → r.refresh c = Except.ok c₂ →
      (check_if_user_has_event st fs r uid nm s e).fs =
        aset ud.creds_file (Except.ok (some c₂)) fs ∧
      (∀ a b q, Eff.remoteList a b q ∈ (check_if_user_has_event st fs r uid nm s e).trace →
        occursBefore (Eff.writeCreds ud.creds_file) (Eff.remoteList a b q)
          (check_if_user_has_event st fs r uid nm s e).trace = true)) ∧
    (∀ st fs r uid nm s e ud c c₂ rid, alookup uid st.user_emails = some ud →
      alookup ud.creds_file fs = some (Except.ok (some c)) →
      c.expired = true → c.refresh_token = true → r.refresh c = Except.ok c₂ →
      c₂.expired = false → c₂.token = true →
      r.listEvents (addTzSuffix s) (addTzSuffix e) nm =
        Except.ok [RemoteEvent.mk rid (some nm)] →
      r.deleteEvent rid = Except.ok () →
      alookup ud.creds_file (remove_from_calendar st fs r uid nm s e).fs =
        some (Except.ok (some c₂)) ∧
      occursBefore (Eff.writeCreds ud.creds_file) (Eff.remoteDelete rid)
        (remove_from_calendar st fs r uid nm s e).trace = true) ∧
    (∀ st fs r uid nm s e ud c, alookup uid st.user_emails = some ud →
      alookup ud.creds_file fs = some (Except.ok (some c)) →
      (c.expired && c.refresh_token) = false → c.valid = false →
      (remove_from_calendar st fs r uid nm s e).outcome =
        RemoveDeletedOutcome.notInCalendar ∧
      (remove_from_calendar st fs r uid nm s e).st = st ∧
      (remove_from_calendar st fs r uid nm s e).fs = fs ∧
      (∀ x ∈ (remove_from_calendar st fs r uid nm s e).trace, remoteEff x = false)) := by
  refine ⟨?_, ?_, ?_, ?_, ?_, ?_, ?_, ?_, ?_, ?_⟩
  · intro st fs r o cid ud c hu hc hexp
    unfold delete_event deleteRemote removeTracking
    simp only [hu, hc, hexp, Bool.false_and, ne_eq, not_true_eq_false, if_false]
    cases hd : r.deleteEvent cid <;>
      cases hl : alookup o st.user_calendar_events <;> simp
  · intro st fs r o cid ud c c₂ hu hc hexp hrt hr
    unfold delete_event deleteRemote removeTracking
    simp only [hu, hc, hexp, hrt, Bool.and_self, ne_eq, not_true_eq_false, if_false, hr]
    cases hd : r.deleteEvent cid <;>
      cases hl : alookup o st.user_calendar_events <;>
        simp [alookup_aset_self, occursBefore, List.contains]
  · intro st fs r uid eid ud ev c hu he hc hg hv
    have hck : check_if_user_has_event st fs r uid ev.name ev.start ev.end_ =
        CheckResult.mk false fs [] := by
      unfold check_if_user_has_event
      simp [checkQuery, hu, hc, hg, hv]
    have hres : add_to_calendar st fs r uid eid =
        OpResult.mk AddOutcome.credsInvalid st fs [Eff.send "credentials invalid"] := by
      unfold add_to_calendar addInsert
      simp [hu, he, hck, hc, hg, hv]
    rw [hres]
    exact ⟨rfl, by intro b; simp⟩
  · intro st fs r o cid ud c hu hc hexp hrt
    unfold delete_event deleteRemote removeTracking
    simp only [hu, hc, hexp, hrt, Bool.and_false, ne_eq, not_true_eq_false, if_false]
    cases hd : r.deleteEvent cid <;>
      cases hl : alookup o st.user_calendar_events <;> simp
  · intro st fs r uid eid ud ev c m hu he hc hexp hrt hr
    have hck : check_if_user_has_event st fs r uid ev.name ev.start ev.end_ =
        CheckResult.mk false fs [Eff.remoteRefresh] := by
      unfold check_if_user_has_event
      simp [hu, hc, hexp, hrt, hr]
    unfold add_to_calendar
    simp [hu, he, hck, hc, hexp, hrt, hr]
  · intro st fs r uid eid ud ev c c₂ ins hu he hc hexp hrt hr hexp₂ htok₂ hl hi
    have hck : check_if_user_has_event st fs r uid ev.name ev.start ev.end_ =
        CheckResult.mk false (aset ud.creds_file (Except.ok (some c₂)) fs)
          [Eff.remoteRefresh, Eff.writeCreds ud.creds_file,
            Eff.remoteList (addTzSuffix ev.start) (addTzSuffix ev.end_) ev.name] := by
      unfold check_if_user_has_event
      simp [checkQuery, Credential.valid, hu, hc, hexp, hrt, hr, hexp₂, htok₂, hl]
    have hres : add_to_calendar st fs r uid eid =
        addInsert st (aset ud.creds_file (Except.ok (some c₂)) fs) r uid eid ev c₂
          [Eff.remoteRefresh, Eff.writeCreds ud.creds_file,
            Eff.remoteList (addTzSuffix ev.start) (addTzSuffix ev.end_) ev.name] := by
      unfold add_to_calendar
      simp [hu, he, hck, alookup_aset_self, hexp₂]
    rw [hres]
    unfold addInsert
    simp [Credential.valid, hexp₂, htok₂, hi, alookup_aset_self, occursBefore, List.contains]
  · intro st fs r uid nm s e ud c hu hc hexp
    unfold check_if_user_has_event
    cases hv : c.valid <;> cases hl : r.listEvents (addTzSuffix s) (addTzSuffix e) nm <;>
      simp [checkQuery, hu, hc, hexp, hv, hl]
  · intro st fs r uid nm s e ud c c₂ hu hc hexp hrt hr
    have hres : check_if_user_has_event st fs r uid nm s e =
        checkQuery r c₂ nm s e (aset ud.creds_file (Except.ok (some c₂)) fs)
          [Eff.remoteRefresh, Eff.writeCreds ud.creds_file] := by
      unfold check_if_user_has_event
      simp [hu, hc, hexp, hrt, hr]
    rw [hres]
    unfold checkQuery
    cases hv : c₂.valid <;> cases hl : r.listEvents (addTzSuffix s) (addTzSuffix e) nm <;>
      simp [hv, hl, occursBefore, List.contains]
  · intro st fs r uid nm s e ud c c₂ rid hu hc hexp hrt hr hexp₂ htok₂ hl hd
    have hck : check_if_user_has_event st fs r uid nm s e =
        CheckResult.mk true (aset ud.creds_file (Except.ok (some c₂)) fs)
          [Eff.remoteRefresh, Eff.writeCreds ud.creds_file,
            Eff.remoteList (addTzSuffix s) (addTzSuffix e) nm] := by
      unfold check_if_user_has_event
      simp [checkQuery, Credential.valid, hu, hc, hexp, hrt, hr, hexp₂, htok₂, hl]
    have hres : remove_from_calendar st fs r uid nm s e =
        removeQuery st (aset ud.creds_file (Except.ok (some c₂)) fs) r uid nm s e
          [Eff.remoteRefresh, Eff.writeCreds ud.creds_file,
            Eff.remoteList (addTzSuffix s) (addTzSuffix e) nm] := by
      unfold remove_from_calendar
      simp [hu, hck, alookup_aset_self, hexp₂]
    rw [hres]
    unfold removeQuery removeTracking
    cases hlk : alookup uid st.user_calendar_events <;>
      simp [hl, hd, hlk, alookup_aset_self, occursBefore, List.contains, List.find?]
  · intro st fs r uid nm s e ud c hu hc hg hv
    have hck : check_if_user_has_event st fs r uid nm s e = CheckResult.mk false fs [] := by
      unfold check_if_user_has_event
      simp [checkQuery, hu, hc, hg, hv]
    have hres : remove_from_calendar st fs r uid nm s e =
        OpResult.mk RemoveDeletedOutcome.notInCalendar st fs [Eff.send "not in your calendar"] := by
      unfold remove_from_calendar
      simp [hu, hck]
    rw [hres]
    exact ⟨rfl, rfl, rfl, by simp [remoteEff]⟩

/-- C2 amended witness: the expired non-refreshable credential of the
concrete fixture still reaches the remote delete call. -/
theorem ensure_valid_amended_witness :
    Eff.remoteDelete "cal1" ∈ (delete_event cSt cFs wRemoteFailDelete "u1" "u1" "cal1").trace :=
  ensure_valid_amended.2.2.2.1 cSt cFs wRemoteFailDelete "u1" "cal1" wUD cCred
    (by decide) (by decide) (by decide) (by decide)

/-- C5 counterexample: a failing credential-file deletion is not reported.
On the concrete fixture the os.remove failure propagates out of the
handler: the outcome is an uncaught error, no message of any kind is sent
(the trace is empty, so in particular no partial-failure report), and both
the registry entry and the credential file are left in place. -/
theorem unregister_counterexample :
    alookup "u1" cSt.user_emails = some wUD ∧
    (alookup wUD.creds_file cFs).isSome = true ∧
    unregister cSt cFs (Except.error "EACCES") "u1" =
      OpResult.mk (UnregisterOutcome.uncaughtError "EACCES") cSt cFs [] := by
  decide

/-- C5 amended: unregister removes the registry entry and deletes the
backing credential file when it exists, after which lookup of the user and
of the file are both absent; but a failure of the file deletion is not
reported as a partial failure — the error propagates with no message sent
and no change to the registry or the file system. -/
theorem unregister_amended
    (st : BotState) (fs : CredsFS) (uid : String) (ud : UserData)
    (hu : alookup uid st.user_emails = some ud) :
    ((alookup ud.creds_file fs).isSome = true →
      (∀ e, unregister st fs (Except.error e) uid =
        OpResult.mk (UnregisterOutcome.uncaughtError e) st fs []) ∧
      (unregister st fs (Except.ok ()) uid).outcome = UnregisterOutcome.disconnected ∧
      alookup uid (unregister st fs (Except.ok ()) uid).st.user_emails = none ∧
      alookup ud.creds_file (unregister st fs (Except.ok ()) uid).fs = none) ∧
    ((alookup ud.creds_file fs).isSome = false →
      ∀ rr, (unregister st fs rr uid).outcome = UnregisterOutcome.disconnected ∧
        alookup uid (unregister st fs rr uid).st.user_emails = none) := by
  constructor
  · intro hex
    refine ⟨?_, ?_, ?_, ?_⟩
    · intro e
      unfold unregister
      simp [hu, hex]
    · unfold unregister
      simp [hu, hex]
    · unfold unregister
      simp [hu, hex, alookup_aremove]
    · unfold unregister
      simp [hu, hex, alookup_aremove]
  · intro hex rr
    unfold unregister
    simp [hu, hex, alookup_aremove]

/-- C5 amended witness: the successful path on the concrete fixture removes
both the registry entry and the credential file. -/
theorem unregister_amended_witness :
    (unregister cSt cFs (Except.ok ()) "u1").outcome = UnregisterOutcome.disconnected ∧
    alookup "u1" (unregister cSt cFs (Except.ok ()) "u1").st.user_emails = none :=
  ⟨((unregister_amended cSt cFs "u1" wUD (by decide)).1 (by decide)).2.1,
    ((unregister_amended cSt cFs "u1" wUD (by decide)).1 (by decide)).2.2.1⟩

/-- C8 counterexample: the stored timestamps carry no offset.  On the
concrete create_event run the stored start string is a naive isoformat
value with no offset designator at all — the suffix-normalization code
itself classifies it as offset-free and appends the hardcoded Pacific
suffix to it. -/
theorem fixed_offset_counterexample :
    (alookup "e2" (create_event wSt wFs "u1" 5 "e2" (some (NaiveDT.mk 2025 1 10 9 0 0))
        (Except.error "x") "Standup" none 1 none).st.shared_events).map SharedEvent.start =
      some "2025-01-10T09:00:00" ∧
    hasOffsetMarker "2025-01-10T09:00:00" = false ∧
    addTzSuffix "2025-01-10T09:00:00" = "2025-01-10T09:00:00-08:00" := by
  decide

/-- C8 amended: shared events store naive isoformat timestamps with no
offset attached; the fixed Pacific offset -08:00 is appended only when a
remote query is issued and only to timestamps lacking an offset designator,
every remote window query in the existence check uses exactly these
suffixed bounds, and the remote create sends the stored naive timestamps
together with the explicit named timezone America/Los_Angeles rather than a
fixed numeric offset. -/
theorem fixed_offset_amended :
    (∀ st fs cr gid nid dt dres name desc dur loc, (0 : Rat) < dur →
      ∃ ev, alookup nid (create_event st fs cr gid nid (some dt) dres name desc dur
          loc).st.shared_events = some ev ∧
        ev.start = dt.isoformat ∧ ev.end_ = (dt.addHours dur).isoformat) ∧
    (∀ s, hasOffsetMarker s = false → addTzSuffix s = s ++ "-08:00") ∧
    (∀ s, hasOffsetMarker s = true → addTzSuffix s = s) ∧
    (∀ ev, (eventBody ev).startTimeZone = "America/Los_Angeles" ∧
      (eventBody ev).endTimeZone = "America/Los_Angeles" ∧
      (eventBody ev).startDateTime = ev.start ∧ (eventBody ev).endDateTime = ev.end_) ∧
    (∀ st fs r uid nm s e a b q,
      Eff.remoteList a b q ∈ (check_if_user_has_event st fs r uid nm s e).trace →
      a = addTzSuffix s ∧ b = addTzSuffix e ∧ q = nm) := by
  refine ⟨?_, ?_, ?_, ?_, ?_⟩
  · intro st fs cr gid nid dt dres name desc dur loc hd
    have hd₂ : ¬ dur ≤ 0 := not_le.mpr hd
    unfold create_event
    simp only [hd₂, if_false]
    cases dres with
    | ok did => exact ⟨_, alookup_aset_self _ _ _, rfl, rfl⟩
    | error m => exact ⟨_, alookup_aset_self _ _ _, rfl, rfl⟩
  · intro s h
    rw [addTzSuffix_marker, h]
    simp
  · intro s h
    rw [addTzSuffix_marker, h]
    simp
  · intro ev
    exact ⟨rfl, rfl, rfl, rfl⟩
  · intro st fs r uid nm s e a b q hmem
    unfold check_if_user_has_event at hmem
    split at hmem
    · simp at hmem
    · split at hmem
      · simp at hmem
      · simp at hmem
      · simp at hmem
      · split at hmem
        · split at hmem
          · simp at hmem
          · unfold checkQuery at hmem
            split at hmem
            · simp at hmem
            · cases hl : r.listEvents (addTzSuffix s) (addTzSuffix e) nm with
              | error m =>
                simp [hl] at hmem
                exact hmem
              | ok evs =>
                simp [hl] at hmem
                exact hmem
        · unfold checkQuery at hmem
          split at hmem
          · simp at hmem
          · cases hl : r.listEvents (addTzSuffix s) (addTzSuffix e) nm with
            | error m =>
              simp [hl] at hmem
              exact hmem
            | ok evs =>
              simp [hl] at hmem
              exact hmem

/-- C8 amended witness: the suffix is appended to the concrete naive stored
timestamp. -/
theorem fixed_offset_amended_witness :
    addTzSuffix "2025-01-10T10:00:00" = "2025-01-10T10:00:00" ++ "-08:00" :=
  fixed_offset_amended.2.1 "2025-01-10T10:00:00" (by decide)

theorem persistedOk_addInsert (st : BotState) (fs : CredsFS) (r : Remote)
    (uid eid : String) (ev : SharedEvent) (creds : Credential) (tr : List Eff)
    (ht : tr.all neutralEff = true) :
    persistedOk (addInsert st fs r uid eid ev creds tr).trace = true := by
  unfold addInsert
  dsimp only
  split
  · rw [persistedOk_append_neutral _ _ ht]
    decide
  · split
    · rw [persistedOk_append_neutral _ _ ht]
      simp [persistedOk, persistedOkAux]
    · rw [persistedOk_append_neutral _ _ ht]
      simp [persistedOk, persistedOkAux]

theorem persistedOk_deleteRemote (st : BotState) (fs : CredsFS) (r : Remote)
    (o cid : String) (tr : List Eff) (ht : tr.all neutralEff = true) :
    persistedOk (deleteRemote st fs r o cid tr).trace = true := by
  unfold deleteRemote removeTracking
  dsimp only
  split
  · rw [persistedOk_append_neutral _ _ ht]
    simp [persistedOk, persistedOkAux]
  · split <;>
      (simp only [List.append_assoc]
       rw [persistedOk_append_neutral _ _ ht]
       simp [persistedOk, persistedOkAux])

theorem persistedOk_removeQuery (st : BotState) (fs : CredsFS) (r : Remote)
    (uid nm s e : String) (tr : List Eff) (ht : tr.all neutralEff = true) :
    persistedOk (removeQuery st fs r uid nm s e tr).trace = true := by
  unfold removeQuery removeTracking
  dsimp only
  split
  · rw [persistedOk_append_neutral _ _ ht]
    simp [persistedOk, persistedOkAux]
  · split
    · rw [persistedOk_append_neutral _ _ ht]
      simp [persistedOk, persistedOkAux]
    · split
      · rw [persistedOk_append_neutral _ _ ht]
        simp [persistedOk, persistedOkAux]
      · split <;>
          (simp only [List.append_assoc]
           rw [persistedOk_append_neutral _ _ ht]
           simp [persistedOk, persistedOkAux])

/-- C9: every store mutation is persisted at once.  In every operation of
the embedding — add-to-calendar, delete-shared-event,
remove-after-source-deleted, delete-from-calendar, unregister, verify,
create_event and the existence check — each mutation of the registry, the
shared event store or the link index is followed by the full rewrite of the
corresponding backing file before any user-facing message is sent and
before the operation returns. -/
theorem persist_before_acknowledge :
    (∀ st fs r uid eid, persistedOk (add_to_calendar st fs r uid eid).trace = true) ∧
    (∀ st fs inv cr eid dei gid ok,
      persistedOk (delete_shared_event st fs inv cr eid dei gid ok).trace = true) ∧
    (∀ st fs r uid nm s e, persistedOk (remove_from_calendar st fs r uid nm s e).trace = true) ∧
    (∀ st fs r inv own cid, persistedOk (delete_event st fs r inv own cid).trace = true) ∧
    (∀ st fs rr uid, persistedOk (unregister st fs rr uid).trace = true) ∧
    (∀ st fs hp uid un fr ci, persistedOk (verify st fs hp uid un fr ci).trace = true) ∧
    (∀ st fs cr gid nid p dr nm d du lo,
      persistedOk (create_event st fs cr gid nid p dr nm d du lo).trace = true) ∧
    (∀ st fs r uid nm s e, persistedOk (check_if_user_has_event st fs r uid nm s e).trace = true) := by
  have hneutral : ∀ t : List Eff, t.all neutralEff = true → persistedOk t = true := by
    intro t ht
    have h := persistedOkAux_neutral_append t [] false false false ht
    rw [List.append_nil] at h
    exact h
  refine ⟨?_, ?_, ?_, ?_, ?_, ?_, ?_, ?_⟩
  · intro st fs r uid eid
    unfold add_to_calendar
    split
    · simp [persistedOk, persistedOkAux]
    · split
      · simp [persistedOk, persistedOkAux]
      · dsimp only
        split
        · rw [persistedOk_append_neutral _ _ (check_trace_neutral st fs r uid _ _ _)]
          simp [persistedOk, persistedOkAux]
        · split
          · rw [persistedOk_append_neutral _ _ (check_trace_neutral st fs r uid _ _ _)]
            simp [persistedOk, persistedOkAux]
          · rw [persistedOk_append_neutral _ _ (check_trace_neutral st fs r uid _ _ _)]
            simp [persistedOk, persistedOkAux]
          · rw [persistedOk_append_neutral _ _ (check_trace_neutral st fs r uid _ _ _)]
            simp [persistedOk, persistedOkAux]
          · split
            · split
              · rw [persistedOk_append_neutral _ _ (check_trace_neutral st fs r uid _ _ _)]
                simp [persistedOk, persistedOkAux]
              · exact persistedOk_addInsert _ _ _ _ _ _ _ _
                  (by simp [List.all_append, check_trace_neutral, neutralEff])
            · exact persistedOk_addInsert _ _ _ _ _ _ _ _ (check_trace_neutral st fs r uid _ _ _)
  · intro st fs inv cr eid dei gid ok
    unfold delete_shared_event
    split
    · simp [persistedOk, persistedOkAux]
    · dsimp only
      split <;> split <;> simp [persistedOk, persistedOkAux]
  · intro st fs r uid nm s e
    unfold remove_from_calendar
    split
    · simp [persistedOk, persistedOkAux]
    · dsimp only
      split
      · rw [persistedOk_append_neutral _ _ (check_trace_neutral st fs r uid _ _ _)]
        decide
      · split
        · rw [persistedOk_append_neutral _ _ (check_trace_neutral st fs r uid _ _ _)]
          simp [persistedOk, persistedOkAux]
        · rw [persistedOk_append_neutral _ _ (check_trace_neutral st fs r uid _ _ _)]
          simp [persistedOk, persistedOkAux]
        · exact persistedOk_removeQuery _ _ _ _ _ _ _ _ (check_trace_neutral st fs r uid _ _ _)
        · split
          · split
            · rw [persistedOk_append_neutral _ _ (check_trace_neutral st fs r uid _ _ _)]
              simp [persistedOk, persistedOkAux]
            · exact persistedOk_removeQuery _ _ _ _ _ _ _ _
                (by simp [List.all_append, check_trace_neutral, neutralEff])
          · exact persistedOk_removeQuery _ _ _ _ _ _ _ _ (check_trace_neutral st fs r uid _ _ _)
  · intro st fs r inv own cid
    unfold delete_event
    split
    · simp [persistedOk, persistedOkAux]
    · split
      · simp [persistedOk, persistedOkAux]
      · split
        · simp [persistedOk, persistedOkAux]
        · simp [persistedOk, persistedOkAux]
        · exact persistedOk_deleteRemote _ _ _ _ _ _ (by simp [neutralEff])
        · split
          · split
            · simp [persistedOk, persistedOkAux]
            · exact persistedOk_deleteRemote _ _ _ _ _ _ (by simp [neutralEff])
          · exact persistedOk_deleteRemote _ _ _ _ _ _ (by simp [neutralEff])
  · intro st fs rr uid
    unfold unregister
    split
    · simp [persistedOk, persistedOkAux]
    · split
      · split
        · simp [persistedOk, persistedOkAux]
        · simp [persistedOk, persistedOkAux]
      · simp [persistedOk, persistedOkAux]
  · intro st fs hp uid un fr ci
    unfold verify
    split
    · simp [persistedOk, persistedOkAux]
    · split
      · simp [persistedOk, persistedOkAux]
      · split
        · simp [persistedOk, persistedOkAux]
        · simp [persistedOk, persistedOkAux]
  · intro st fs cr gid nid p dr nm d du lo
    unfold create_event
    split
    · simp [persistedOk, persistedOkAux]
    · split
      · simp [persistedOk, persistedOkAux]
      · dsimp only
        split <;> simp [persistedOk, persistedOkAux]
  · intro st fs r uid nm s e
    exact hneutral _ (check_trace_neutral st fs r uid nm s e)

end CalendarBot
